import Mathlib

/-!
Shallow embedding of the transcript snippet classification-and-aggregation
pipeline of `src/backend/app.py` (Uncap_AI).

The external collaborators (the six-way text classifier, the wikipedia
`page`/`summary` calls) are modelled as oracle functions passed in as
parameters; a call that may raise a Python exception is modelled as
returning `Except PyExc _`.  The pipeline code itself is translated
statement-for-statement:

  * `label_map` (app.py lines 25-32) — partial map from classifier class id
    to raw label; a missing key is a Python `KeyError`.
  * `STOPWORDS` (line 35).
  * `retrieve_correct_fact` (lines 38-51) — note that an exception raised
    inside the `except DisambiguationError` handler is NOT caught by the
    sibling `except Exception` clause and so propagates out.
  * `analyze_line_safe` (lines 54-97) — the body that can raise is
    `analyze_line_body : Except PyExc LineAnalysis`; the outer `try/except`
    of the Python function is the final `match` in `analyze_line_safe`.
  * the per-request aggregation loop and summary of `analyze_video`
    (lines 149-190), modelled from the point where a transcript has been
    fetched (`processTranscript`, `analyze_video`).

Confidence scores (Python floats that are only ever passed through, never
computed with) are modelled as `ℚ`.
-/

/-- A Python exception value, as far as this pipeline can observe one. -/
inductive PyExc where
  /-- The wikipedia DisambiguationError, with its candidate list. -/
  | disambiguation (options : List String) : PyExc
  /-- A KeyError from a failed dict lookup, as in label_map[pred_id]. -/
  | keyError (key : Nat) : PyExc
  /-- An IndexError, as in e.options[0] on an empty list. -/
  | indexError : PyExc
  /-- Any other exception, carrying its `str(e)` rendering. -/
  | generic (message : String) : PyExc
deriving DecidableEq, Repr

/-- The `str(e)` rendering used in the diagnostic strings of `app.py`. -/
def PyExc.msg : PyExc → String
  | .disambiguation options => "DisambiguationError: " ++ String.intercalate ", " options
  | .keyError key => toString key
  | .indexError => "list index out of range"
  | .generic message => message

/-- Embedding of label_map, app.py lines 25-32: dict from class index to raw label.
A key outside `0..5` has no entry (lookup raises `KeyError`). -/
def label_map : Nat → Option String
  | 0 => some "pants-fire"
  | 1 => some "false"
  | 2 => some "barely-true"
  | 3 => some "half-true"
  | 4 => some "mostly-true"
  | 5 => some "true"
  | _ => none

/-- Embedding of STOPWORDS, app.py line 35: the filler denylist. -/
def STOPWORDS : List String :=
  ["hi", "hello", "you know", "zoom in", "wooh", "hey friends", "obvious reasons"]

/-- ASCII-range embedding of Python `str.lower` on one character. -/
def pyLowerChar (c : Char) : Char :=
  if 'A' ≤ c ∧ c ≤ 'Z' then Char.ofNat (c.toNat + 32) else c

/-- Embedding of Python `str.lower` (the stopword list is ASCII, so the
ASCII case fold is the relevant fragment). -/
def pyLower (s : String) : String :=
  ⟨s.data.map pyLowerChar⟩

/-- The whitespace class used by Python `str.split()` (ASCII fragment). -/
def pyIsSpace (c : Char) : Bool :=
  c = ' ' || c = '\t' || c = '\n' || c = '\r' || c = Char.ofNat 11 || c = Char.ofNat 12

/-- Splits a character list into maximal whitespace-free words, discarding
empty words, accumulating the current word in reverse. -/
def wordsAux : List Char → List Char → List (List Char)
  | [], acc => if acc.isEmpty then [] else [acc.reverse]
  | c :: cs, acc =>
    if pyIsSpace c then
      if acc.isEmpty then wordsAux cs [] else acc.reverse :: wordsAux cs []
    else
      wordsAux cs (c :: acc)

/-- Embedding of len(text.split()) at app.py line 58: number of whitespace-separated
words, runs of whitespace collapsed, no empty words. -/
def pyWordCount (text : String) : Nat :=
  (wordsAux text.data []).length

/-- Does `needle` occur at the head of `hay`? -/
def beginsWith : List Char → List Char → Bool
  | [], _ => true
  | _ :: _, [] => false
  | c :: cs, d :: ds => c = d && beginsWith cs ds

/-- Contiguous-subsequence occurrence on character lists. -/
def containsSeq (needle : List Char) : List Char → Bool
  | [] => beginsWith needle []
  | c :: cs => beginsWith needle (c :: cs) || containsSeq needle cs

/-- Embedding of the Python substring test `needle in hay`. -/
def strContains (hay needle : String) : Bool :=
  containsSeq needle.data hay.data

/-- The filter condition of app.py line 58:
`len(text.split()) < 3 or any(sw in text.lower() for sw in STOPWORDS)`. -/
def dropSnippet (text : String) : Bool :=
  decide (pyWordCount text < 3) || STOPWORDS.any (fun sw => strContains (pyLower text) sw)

/-- A wikipedia page object, as far as `retrieve_correct_fact` reads it. -/
structure WikiPage where
  title : String
  url : String
deriving DecidableEq, Repr

/-- The `try` block of `retrieve_correct_fact` (app.py lines 41-45):
`result = page(snippet_text); fact = summary(result.title, sentences=2);
source = f"Wikipedia: {result.url}"; return fact, source`. -/
def retrieve_try (pg : String → Except PyExc WikiPage)
    (sm : String → Except PyExc String) (snippet_text : String) :
    Except PyExc (Option String × Option String) :=
  match pg snippet_text with
  | .error e => .error e
  | .ok result =>
    match sm result.title with
    | .error e => .error e
    | .ok fact => .ok (some fact, some ("Wikipedia: " ++ result.url))

/-- Embedding of retrieve_correct_fact, app.py lines 38-51, with the wikipedia
`page` and `summary` calls as oracles.  The result is `Except` because an
exception raised inside the `except DisambiguationError` handler (a failing
`summary(e.options[0])`, or `e.options[0]` on an empty candidate list) is
not caught by the sibling `except Exception` clause and propagates out. -/
def retrieve_correct_fact (pg : String → Except PyExc WikiPage)
    (sm : String → Except PyExc String) (snippet_text : String) :
    Except PyExc (Option String × Option String) :=
  match retrieve_try pg sm snippet_text with
  | .ok res => .ok res
  | .error (.disambiguation options) =>
    match options with
    | [] => .error .indexError
    | o :: _ =>
      match sm o with
      | .ok fact => .ok (some fact, some ("Wikipedia: " ++ o))
      | .error e => .error e
  | .error _ => .ok (none, none)

/-- The per-snippet record built by `analyze_line_safe`. -/
structure LineAnalysis where
  label : String
  raw_label : Option String
  score : Option ℚ
  correct_fact : Option String
  source : Option String
deriving DecidableEq, Repr

/-- The body of `analyze_line_safe` (the `try` block, app.py lines 57-89):
filter, classify, tier, and for the misinformation tier attempt fact
retrieval.  `classify` is the tokenizer+model oracle returning the argmax
class id and its probability; any exception it raises, and the `KeyError`
of `label_map[pred_id]` on an out-of-domain id, surface as `.error`. -/
def analyze_line_body (classify : String → Except PyExc (Nat × ℚ))
    (pg : String → Except PyExc WikiPage) (sm : String → Except PyExc String)
    (text : String) : Except PyExc LineAnalysis :=
  if dropSnippet text = true then
    .ok ⟨"IGNORED", none, none, none, none⟩
  else
    match classify text with
    | .error e => .error e
    | .ok (pred_id, confidence) =>
      match label_map pred_id with
      | none => .error (.keyError pred_id)
      | some label =>
        if label = "true" ∨ label = "mostly-true" then
          .ok ⟨"REAL", some label, some confidence, none, none⟩
        else if label = "half-true" ∨ label = "barely-true" then
          .ok ⟨"UNCERTAIN", some label, some confidence, none, none⟩
        else
          match retrieve_correct_fact pg sm text with
          | .ok (correct_fact, source) =>
            .ok ⟨"MISINFORMATION", some label, some confidence, correct_fact, source⟩
          | .error e =>
            .ok ⟨"MISINFORMATION", some label, some confidence, none,
                 some ("Fact retrieval failed: " ++ e.msg)⟩

/-- Embedding of analyze_line_safe, app.py lines 54-97: the outer try/except turns
any exception from the body into an `ERROR` record with a diagnostic. -/
def analyze_line_safe (classify : String → Except PyExc (Nat × ℚ))
    (pg : String → Except PyExc WikiPage) (sm : String → Except PyExc String)
    (text : String) : LineAnalysis :=
  match analyze_line_body classify pg sm text with
  | .ok r => r
  | .error e => ⟨"ERROR", none, none, none, some ("Snippet processing failed: " ++ e.msg)⟩

/-- The label-tiering fragment of app.py lines 70-77, as a function of the
raw label alone. -/
def resolveVerdict (label : String) : String :=
  if label = "true" ∨ label = "mostly-true" then "REAL"
  else if label = "half-true" ∨ label = "barely-true" then "UNCERTAIN"
  else "MISINFORMATION"

/-- One transcript snippet (`snippet.text`, `snippet.start`). -/
structure Snippet where
  text : String
  start : ℚ
deriving DecidableEq, Repr

/-- One entry of `analyzed_transcript` (`line_data`, app.py lines 159-166). -/
structure LineData where
  timestamp : ℚ
  text : String
  misinformation : String
  score : Option ℚ
  correct_fact : Option String
  source : Option String
deriving DecidableEq, Repr

/-- One entry of `summary_facts` (app.py lines 171-175). -/
structure SummaryFact where
  term : String
  fact : Option String
  source : Option String
deriving DecidableEq, Repr

/-- Builds `line_data` from a snippet and its analysis (lines 159-166). -/
def mkLineData (s : Snippet) (a : LineAnalysis) : LineData :=
  ⟨s.start, s.text, a.label, a.score, a.correct_fact, a.source⟩

/-- Python truthiness of `analysis.get("correct_fact")` (line 170): a
present, non-empty string. -/
def pyTruthy : Option String → Bool
  | none => false
  | some s => s != ""

/-- The three lists accumulated by the loop of app.py lines 149-175. -/
structure BatchResult where
  transcript : List LineData
  misconceptions : List LineData
  summary_facts : List SummaryFact
deriving DecidableEq, Repr

/-- The per-request loop of app.py lines 149-175: analyze each snippet in
order, skip IGNORED ones, collect misconceptions and summary facts. -/
def processTranscript (analyze : String → LineAnalysis) :
    List Snippet → BatchResult
  | [] => ⟨[], [], []⟩
  | s :: rest =>
    let a := analyze s.text
    let r := processTranscript analyze rest
    if a.label = "IGNORED" then r
    else
      let ld := mkLineData s a
      if a.label = "MISINFORMATION" then
        if pyTruthy a.correct_fact then
          ⟨ld :: r.transcript, ld :: r.misconceptions,
           ⟨s.text, a.correct_fact, a.source⟩ :: r.summary_facts⟩
        else
          ⟨ld :: r.transcript, ld :: r.misconceptions, r.summary_facts⟩
      else
        ⟨ld :: r.transcript, r.misconceptions, r.summary_facts⟩

/-- The `summary` dict of app.py lines 178-182. -/
structure VideoSummary where
  total_snippets : Nat
  misinformation_count : Nat
  real_count : Nat
deriving DecidableEq, Repr

/-- The JSON body returned by the route on success (lines 184-190). -/
structure AnalyzeResponse where
  video_url : String
  transcript : List LineData
  misconceptions : List LineData
  summary : VideoSummary
  summary_facts : List SummaryFact
deriving DecidableEq, Repr

/-- The `/analyze` route of app.py from the point where a transcript has
been fetched (lines 149-190): runs the loop, computes the summary, and
returns HTTP 200 with the response body (flask `jsonify` defaults to 200;
this path has no other `return`). -/
def analyze_video (analyze : String → LineAnalysis) (video_url : String)
    (transcript : List Snippet) : Nat × AnalyzeResponse :=
  let r := processTranscript analyze transcript
  (200,
   ⟨video_url, r.transcript, r.misconceptions,
    ⟨r.transcript.length, r.misconceptions.length,
     (r.transcript.filter fun x => x.misinformation == "REAL").length⟩,
    r.summary_facts⟩)

/-! ### Concrete collaborator behaviours used to instantiate the theorems -/

/-- A classifier that always predicts class 5 (`true`) with probability 1. -/
def clTrue : String → Except PyExc (Nat × ℚ) := fun _ => .ok (5, 1)

/-- A classifier that always predicts class 1 (`false`) with probability 9/10. -/
def clFalse : String → Except PyExc (Nat × ℚ) := fun _ => .ok (1, 9/10)

/-- A classifier that always reports class id 6, outside `label_map`. -/
def clOutOfDomain : String → Except PyExc (Nat × ℚ) := fun _ => .ok (6, 1/2)

/-- A classifier that raises on one specific snippet and predicts class 5
elsewhere. -/
def clCrashOnMoon : String → Except PyExc (Nat × ℚ) := fun t =>
  if t = "the moon is made of cheese" then .error (.generic "model crashed")
  else .ok (5, 1)

/-- A wikipedia `page` oracle that succeeds. -/
def pgOk : String → Except PyExc WikiPage := fun _ => .ok ⟨"Earth", "https://w/Earth"⟩

/-- A wikipedia `page` oracle that raises a network fault. -/
def pgNetFault : String → Except PyExc WikiPage := fun _ => .error (.generic "network fault")

/-- A wikipedia `page` oracle that reports an ambiguous query. -/
def pgAmbiguous : String → Except PyExc WikiPage := fun _ =>
  .error (.disambiguation ["Mercury (planet)"])

/-- A wikipedia `summary` oracle that succeeds. -/
def smOk : String → Except PyExc String := fun _ => .ok "Some article text."

/-- A wikipedia `summary` oracle that raises. -/
def smFail : String → Except PyExc String := fun _ => .error (.generic "summary fetch failed")

-- Concrete evaluations of the embedding on small inputs.
example : pyWordCount "hi there" = 2 := by decide
example : pyWordCount "the earth is flat" = 4 := by decide
example : strContains (pyLower "tHis is a test sentence") "hi" = true := by decide
example : dropSnippet "HEY FRIENDS welcome to the channel" = true := by decide
example : dropSnippet "the earth is flat" = false := by decide
example :
    analyze_line_safe (fun _ => .ok (5, 1)) (fun _ => .error (.generic "x"))
      (fun _ => .error (.generic "x")) "water boils at one hundred degrees" =
    ⟨"REAL", some "true", some 1, none, none⟩ := by decide


/-! ### Per-snippet helper lemmas -/

/-- If the filter fires, the analysis is the IGNORED record. -/
theorem analyze_ignored (cl : String → Except PyExc (Nat × ℚ))
    (pg : String → Except PyExc WikiPage) (sm : String → Except PyExc String)
    (text : String) (hd : dropSnippet text = true) :
    analyze_line_safe cl pg sm text = ⟨"IGNORED", none, none, none, none⟩ := by
  unfold analyze_line_safe analyze_line_body
  rw [hd]
  simp

/-- A classifier exception on a non-filtered snippet yields the ERROR
record with the diagnostic in `source`. -/
theorem analyze_classifier_error (cl : String → Except PyExc (Nat × ℚ))
    (pg : String → Except PyExc WikiPage) (sm : String → Except PyExc String)
    (text : String) (e : PyExc) (hd : dropSnippet text = false)
    (hc : cl text = .error e) :
    analyze_line_safe cl pg sm text =
      ⟨"ERROR", none, none, none, some ("Snippet processing failed: " ++ e.msg)⟩ := by
  unfold analyze_line_safe analyze_line_body
  rw [hd, hc]
  simp

/-- An out-of-domain class id raises `KeyError` in `label_map[pred_id]`,
which the outer handler turns into the ERROR record. -/
theorem analyze_keyError (cl : String → Except PyExc (Nat × ℚ))
    (pg : String → Except PyExc WikiPage) (sm : String → Except PyExc String)
    (text : String) (pred_id : ℕ) (conf : ℚ) (hd : dropSnippet text = false)
    (hc : cl text = .ok (pred_id, conf)) (hl : label_map pred_id = none) :
    analyze_line_safe cl pg sm text =
      ⟨"ERROR", none, none, none,
       some ("Snippet processing failed: " ++ toString pred_id)⟩ := by
  unfold analyze_line_safe analyze_line_body
  rw [hd, hc]
  simp [hl, PyExc.msg]

/-- On a non-filtered snippet with an in-domain classifier output, the
public label is the tier of the raw label, and the raw label and score are
passed through. -/
theorem analyze_ok_tier (cl : String → Except PyExc (Nat × ℚ))
    (pg : String → Except PyExc WikiPage) (sm : String → Except PyExc String)
    (text : String) (pred_id : ℕ) (conf : ℚ) (lab : String)
    (hd : dropSnippet text = false) (hc : cl text = .ok (pred_id, conf))
    (hl : label_map pred_id = some lab) :
    (analyze_line_safe cl pg sm text).label = resolveVerdict lab ∧
    (analyze_line_safe cl pg sm text).raw_label = some lab ∧
    (analyze_line_safe cl pg sm text).score = some conf := by
  unfold analyze_line_safe analyze_line_body resolveVerdict
  rw [hd, hc]
  by_cases h1 : lab = "true" ∨ lab = "mostly-true"
  · simp [hl, h1]
  · by_cases h2 : lab = "half-true" ∨ lab = "barely-true"
    · simp [hl, h1, h2]
    · rcases hret : retrieve_correct_fact pg sm text with e | ⟨f, s⟩ <;>
        simp [hl, h1, h2, hret]

/-- In the MISINFORMATION branch, a fact-retrieval exception is caught by
the inner handler: the fact is absent and `source` carries the diagnostic. -/
theorem analyze_mis_retrieval_error (cl : String → Except PyExc (Nat × ℚ))
    (pg : String → Except PyExc WikiPage) (sm : String → Except PyExc String)
    (text : String) (pred_id : ℕ) (conf : ℚ) (lab : String) (e : PyExc)
    (hd : dropSnippet text = false) (hc : cl text = .ok (pred_id, conf))
    (hl : label_map pred_id = some lab)
    (h1 : ¬(lab = "true" ∨ lab = "mostly-true"))
    (h2 : ¬(lab = "half-true" ∨ lab = "barely-true"))
    (hret : retrieve_correct_fact pg sm text = .error e) :
    analyze_line_safe cl pg sm text =
      ⟨"MISINFORMATION", some lab, some conf, none,
       some ("Fact retrieval failed: " ++ e.msg)⟩ := by
  unfold analyze_line_safe analyze_line_body
  rw [hd, hc]
  simp [hl, h1, h2, hret]

/-- In the MISINFORMATION branch, a lookup that returns normally has its
fact/source pair passed through unchanged. -/
theorem analyze_mis_retrieval_ok (cl : String → Except PyExc (Nat × ℚ))
    (pg : String → Except PyExc WikiPage) (sm : String → Except PyExc String)
    (text : String) (pred_id : ℕ) (conf : ℚ) (lab : String)
    (f s : Option String)
    (hd : dropSnippet text = false) (hc : cl text = .ok (pred_id, conf))
    (hl : label_map pred_id = some lab)
    (h1 : ¬(lab = "true" ∨ lab = "mostly-true"))
    (h2 : ¬(lab = "half-true" ∨ lab = "barely-true"))
    (hret : retrieve_correct_fact pg sm text = .ok (f, s)) :
    analyze_line_safe cl pg sm text =
      ⟨"MISINFORMATION", some lab, some conf, f, s⟩ := by
  unfold analyze_line_safe analyze_line_body
  rw [hd, hc]
  simp [hl, h1, h2, hret]

/-- Every record the body returns normally has one of four shapes; in the
three non-misinformation shapes the fact is absent. -/
theorem analyze_line_body_ok_shape (cl : String → Except PyExc (Nat × ℚ))
    (pg : String → Except PyExc WikiPage) (sm : String → Except PyExc String)
    (text : String) (r : LineAnalysis)
    (h : analyze_line_body cl pg sm text = .ok r) :
    (r.label = "IGNORED" ∧ r.correct_fact = none) ∨
    (r.label = "REAL" ∧ r.correct_fact = none) ∨
    (r.label = "UNCERTAIN" ∧ r.correct_fact = none) ∨
    r.label = "MISINFORMATION" := by
  unfold analyze_line_body at h
  split at h
  · cases h; simp
  · split at h
    · cases h
    · split at h
      · cases h
      · split at h
        · cases h; simp
        · split at h
          · cases h; simp
          · split at h <;> (cases h; simp)

/-- The public label of `analyze_line_safe` is always one of the five
verdict strings. -/
theorem analyze_label_mem (cl : String → Except PyExc (Nat × ℚ))
    (pg : String → Except PyExc WikiPage) (sm : String → Except PyExc String)
    (text : String) :
    (analyze_line_safe cl pg sm text).label ∈
      (["IGNORED", "REAL", "UNCERTAIN", "MISINFORMATION", "ERROR"] : List String) := by
  unfold analyze_line_safe
  rcases h : analyze_line_body cl pg sm text with e | r
  · simp
  · rcases analyze_line_body_ok_shape cl pg sm text r h with ⟨h', _⟩ | ⟨h', _⟩ | ⟨h', _⟩ | h' <;>
      simp [h']

/-- A record whose label is not MISINFORMATION carries no corrective fact. -/
theorem analyze_fact_only_mis (cl : String → Except PyExc (Nat × ℚ))
    (pg : String → Except PyExc WikiPage) (sm : String → Except PyExc String)
    (text : String)
    (h : (analyze_line_safe cl pg sm text).label ≠ "MISINFORMATION") :
    (analyze_line_safe cl pg sm text).correct_fact = none := by
  unfold analyze_line_safe at *
  rcases hb : analyze_line_body cl pg sm text with e | r
  · simp
  · rw [hb] at h
    simp only
    rcases analyze_line_body_ok_shape cl pg sm text r hb with ⟨_, h'⟩ | ⟨_, h'⟩ | ⟨_, h'⟩ | h'
    · exact h'
    · exact h'
    · exact h'
    · exact absurd h' h

/-! ### Aggregation helper lemmas -/

/-- Unfolding lemma for the cons case of the loop. -/
theorem processTranscript_cons (analyze : String → LineAnalysis)
    (s : Snippet) (rest : List Snippet) :
    processTranscript analyze (s :: rest) =
      (let a := analyze s.text
       let r := processTranscript analyze rest
       if a.label = "IGNORED" then r
       else
         let ld := mkLineData s a
         if a.label = "MISINFORMATION" then
           if pyTruthy a.correct_fact then
             ⟨ld :: r.transcript, ld :: r.misconceptions,
              ⟨s.text, a.correct_fact, a.source⟩ :: r.summary_facts⟩
           else
             ⟨ld :: r.transcript, ld :: r.misconceptions, r.summary_facts⟩
         else
           ⟨ld :: r.transcript, r.misconceptions, r.summary_facts⟩) := rfl

/-- Processing a concatenation concatenates all three result lists:
snippets are handled one at a time and independently. -/
theorem processTranscript_append (analyze : String → LineAnalysis)
    (xs ys : List Snippet) :
    processTranscript analyze (xs ++ ys) =
      ⟨(processTranscript analyze xs).transcript ++ (processTranscript analyze ys).transcript,
       (processTranscript analyze xs).misconceptions ++ (processTranscript analyze ys).misconceptions,
       (processTranscript analyze xs).summary_facts ++ (processTranscript analyze ys).summary_facts⟩ := by
  induction xs with
  | nil => simp [processTranscript]
  | cons s rest ih =>
    rw [List.cons_append, processTranscript_cons, processTranscript_cons, ih]
    by_cases h1 : (analyze s.text).label = "IGNORED"
    · simp [h1]
    · by_cases h2 : (analyze s.text).label = "MISINFORMATION"
      · by_cases h3 : pyTruthy (analyze s.text).correct_fact = true <;> simp [h1, h2, h3]
      · simp [h1, h2]

/-- The emitted transcript is exactly the input in order, each non-IGNORED
snippet mapped to its `line_data`. -/
theorem processTranscript_transcript_eq (analyze : String → LineAnalysis)
    (ts : List Snippet) :
    (processTranscript analyze ts).transcript =
      ts.filterMap (fun s =>
        if (analyze s.text).label = "IGNORED" then none
        else some (mkLineData s (analyze s.text))) := by
  induction ts with
  | nil => rfl
  | cons s rest ih =>
    rw [processTranscript_cons, List.filterMap_cons]
    by_cases h1 : (analyze s.text).label = "IGNORED"
    · simp [h1, ih]
    · by_cases h2 : (analyze s.text).label = "MISINFORMATION"
      · by_cases h3 : pyTruthy (analyze s.text).correct_fact = true <;> simp [h1, h2, h3, ih]
      · simp [h1, h2, ih]

/-- The misconceptions list is the MISINFORMATION sublist of the emitted
transcript, in the same order. -/
theorem processTranscript_misconceptions_eq (analyze : String → LineAnalysis)
    (ts : List Snippet) :
    (processTranscript analyze ts).misconceptions =
      (processTranscript analyze ts).transcript.filter
        (fun ld => ld.misinformation == "MISINFORMATION") := by
  induction ts with
  | nil => rfl
  | cons s rest ih =>
    rw [processTranscript_cons]
    by_cases h1 : (analyze s.text).label = "IGNORED"
    · simp [h1, ih]
    · by_cases h2 : (analyze s.text).label = "MISINFORMATION"
      · by_cases h3 : pyTruthy (analyze s.text).correct_fact = true <;>
          simp [h1, h2, h3, ih, mkLineData, List.filter_cons]
      · simp [h1, h2, ih, mkLineData, List.filter_cons]

/-- Every emitted line comes from some input snippet whose analysis was not
IGNORED. -/
theorem mem_processTranscript_transcript (analyze : String → LineAnalysis)
    (ts : List Snippet) (ld : LineData)
    (h : ld ∈ (processTranscript analyze ts).transcript) :
    ∃ s, s ∈ ts ∧ (analyze s.text).label ≠ "IGNORED" ∧
      ld = mkLineData s (analyze s.text) := by
  rw [processTranscript_transcript_eq] at h
  rcases List.mem_filterMap.mp h with ⟨s, hs, heq⟩
  by_cases h1 : (analyze s.text).label = "IGNORED"
  · rw [if_pos h1] at heq; cases heq
  · rw [if_neg h1] at heq
    exact ⟨s, hs, h1, (Option.some_injective _ heq).symm⟩

/-- A snippet analyzed as MISINFORMATION lands in `misconceptions`. -/
theorem mem_misconceptions_of_mis (analyze : String → LineAnalysis)
    (ts : List Snippet) (s : Snippet) (hs : s ∈ ts)
    (hmis : (analyze s.text).label = "MISINFORMATION") :
    mkLineData s (analyze s.text) ∈ (processTranscript analyze ts).misconceptions := by
  induction ts with
  | nil => cases hs
  | cons t rest ih =>
    rw [processTranscript_cons]
    rcases List.mem_cons.mp hs with rfl | hs'
    · simp only [hmis]
      by_cases h3 : pyTruthy (analyze s.text).correct_fact = true <;> simp [h3, hmis]
    · by_cases h1 : (analyze t.text).label = "IGNORED"
      · simp [h1, ih hs']
      · by_cases h2 : (analyze t.text).label = "MISINFORMATION"
        · by_cases h3 : pyTruthy (analyze t.text).correct_fact = true <;>
            simp [h1, h2, h3, List.mem_cons, ih hs']
        · simp [h1, h2, ih hs']

/-- Partition of a line list by the four emitted labels: when every
element has a label among them, the four filter counts sum to the length. -/
theorem filter_label_partition (lds : List LineData)
    (h : ∀ ld ∈ lds, ld.misinformation = "REAL" ∨ ld.misinformation = "UNCERTAIN" ∨
          ld.misinformation = "MISINFORMATION" ∨ ld.misinformation = "ERROR") :
    (lds.filter fun x => x.misinformation == "MISINFORMATION").length +
    (lds.filter fun x => x.misinformation == "REAL").length +
    (lds.filter fun x => x.misinformation == "UNCERTAIN").length +
    (lds.filter fun x => x.misinformation == "ERROR").length = lds.length := by
  induction lds with
  | nil => rfl
  | cons ld rest ih =>
    have hrest := ih (fun x hx => h x (List.mem_cons_of_mem ld hx))
    rcases h ld (List.mem_cons_self ld rest) with h' | h' | h' | h' <;>
      simp only [List.filter_cons, h', List.length_cons] <;> simp <;> omega

/-! ### The claims -/

/-- C1: For every one of the six raw labels, the Verdict Resolver tiering
is deterministic and exhaustive: `true`/`mostly-true` yield REAL,
`half-true`/`barely-true` yield UNCERTAIN, `false`/`pants-fire` yield
MISINFORMATION (being a function, `resolveVerdict` maps no label to more
than one tier), and the label produced for any non-filtered snippet on an
in-domain classifier output is exactly this tiering of its raw label. -/
theorem c1_verdict_tiering :
    resolveVerdict "true" = "REAL" ∧ resolveVerdict "mostly-true" = "REAL" ∧
    resolveVerdict "half-true" = "UNCERTAIN" ∧ resolveVerdict "barely-true" = "UNCERTAIN" ∧
    resolveVerdict "false" = "MISINFORMATION" ∧ resolveVerdict "pants-fire" = "MISINFORMATION" ∧
    ∀ (cl : String → Except PyExc (Nat × ℚ)) (pg : String → Except PyExc WikiPage)
      (sm : String → Except PyExc String) (text : String) (pred_id : ℕ) (conf : ℚ)
      (lab : String),
      dropSnippet text = false → cl text = .ok (pred_id, conf) →
      label_map pred_id = some lab →
      (analyze_line_safe cl pg sm text).label = resolveVerdict lab := by
  refine ⟨rfl, rfl, rfl, rfl, rfl, rfl, ?_⟩
  intro cl pg sm text pred_id conf lab hd hc hl
  exact (analyze_ok_tier cl pg sm text pred_id conf lab hd hc hl).1

/-- C1 witness: the tiering conjunct applied to a concrete snippet whose
classifier output is class 5 (`true`). -/
theorem c1_verdict_tiering_witness :
    (analyze_line_safe clTrue pgOk smOk "water expands when it freezes").label =
      resolveVerdict "true" :=
  c1_verdict_tiering.2.2.2.2.2.2 clTrue pgOk smOk "water expands when it freezes"
    5 1 "true" (by decide) rfl rfl

/-- C3: Every snippet with fewer than 3 whitespace-tokenized words, or
whose lowercased text contains a denylisted phrase as an exact substring
(hence regardless of input casing; the two conditions act independently,
either one sufficing), is dropped by the filter with verdict IGNORED. -/
theorem c3_filter_drops (cl : String → Except PyExc (Nat × ℚ))
    (pg : String → Except PyExc WikiPage) (sm : String → Except PyExc String)
    (text : String)
    (h : pyWordCount text < 3 ∨ ∃ sw ∈ STOPWORDS, strContains (pyLower text) sw = true) :
    analyze_line_safe cl pg sm text = ⟨"IGNORED", none, none, none, none⟩ := by
  apply analyze_ignored
  unfold dropSnippet
  rcases h with h | ⟨sw, hsw, hc⟩
  · simp [h]
  · simp only [Bool.or_eq_true, List.any_eq_true, decide_eq_true_eq]
    exact Or.inr ⟨sw, hsw, hc⟩

/-- C3 witness: an upper-case snippet with enough words whose lowercase
contains the denylisted phrase "hello" is dropped. -/
theorem c3_filter_drops_witness :
    analyze_line_safe clTrue pgOk smOk "WELL HELLO THERE MY FRIENDS" =
      ⟨"IGNORED", none, none, none, none⟩ :=
  c3_filter_drops clTrue pgOk smOk "WELL HELLO THERE MY FRIENDS"
    (Or.inr ⟨"hello", by decide, by decide⟩)

/-- C6: `label_map`'s domain is exactly the six raw labels, and a classifier
class id outside it is not tiered and not dropped: the `KeyError` of
`label_map[pred_id]` reaches the per-snippet handler, which emits verdict
ERROR with a descriptive message naming the offending key. -/
theorem c6_out_of_domain_error :
    (∀ (pred_id : ℕ) (lab : String), label_map pred_id = some lab →
      lab ∈ (["pants-fire", "false", "barely-true", "half-true", "mostly-true", "true"] :
        List String)) ∧
    ∀ (cl : String → Except PyExc (Nat × ℚ)) (pg : String → Except PyExc WikiPage)
      (sm : String → Except PyExc String) (text : String) (pred_id : ℕ) (conf : ℚ),
      dropSnippet text = false → cl text = .ok (pred_id, conf) →
      label_map pred_id = none →
      analyze_line_safe cl pg sm text =
        ⟨"ERROR", none, none, none,
         some ("Snippet processing failed: " ++ toString pred_id)⟩ := by
  constructor
  · intro pred_id lab h
    unfold label_map at h
    split at h <;> simp_all
  · intro cl pg sm text pred_id conf hd hc hl
    exact analyze_keyError cl pg sm text pred_id conf hd hc hl

/-- C6 witness: class id 6 on a substantive snippet yields the ERROR record
with the key in the diagnostic. -/
theorem c6_out_of_domain_error_witness :
    analyze_line_safe clOutOfDomain pgOk smOk "the earth orbits the sun" =
      ⟨"ERROR", none, none, none, some ("Snippet processing failed: " ++ toString 6)⟩ :=
  c6_out_of_domain_error.2 clOutOfDomain pgOk smOk "the earth orbits the sun"
    6 (1/2) (by decide) rfl rfl

/-- C10: `analyze_line_safe` is total — it returns a record for every input
text and every behaviour of the classifier and lookup collaborators (it is
a Lean function into `LineAnalysis`, so it cannot raise) — and the returned
label is always one of exactly IGNORED, REAL, UNCERTAIN, MISINFORMATION,
ERROR. -/
theorem c10_label_domain (cl : String → Except PyExc (Nat × ℚ))
    (pg : String → Except PyExc WikiPage) (sm : String → Except PyExc String)
    (text : String) :
    (analyze_line_safe cl pg sm text).label ∈
      (["IGNORED", "REAL", "UNCERTAIN", "MISINFORMATION", "ERROR"] : List String) :=
  analyze_label_mem cl pg sm text

/-- C2: A fault raised while processing one snippet does not abort the
batch: that snippet alone is emitted as a line with verdict ERROR and a
diagnostic in `source`, and the lines emitted for the surrounding snippets
are exactly those that would be emitted without the faulting snippet. -/
theorem c2_per_snippet_isolation (cl : String → Except PyExc (Nat × ℚ))
    (pg : String → Except PyExc WikiPage) (sm : String → Except PyExc String)
    (xs ys : List Snippet) (b : Snippet) (e : PyExc)
    (hd : dropSnippet b.text = false) (hc : cl b.text = .error e) :
    (processTranscript (analyze_line_safe cl pg sm) (xs ++ b :: ys)).transcript =
      (processTranscript (analyze_line_safe cl pg sm) xs).transcript ++
        mkLineData b ⟨"ERROR", none, none, none,
          some ("Snippet processing failed: " ++ e.msg)⟩ ::
        (processTranscript (analyze_line_safe cl pg sm) ys).transcript ∧
    (processTranscript (analyze_line_safe cl pg sm) (xs ++ ys)).transcript =
      (processTranscript (analyze_line_safe cl pg sm) xs).transcript ++
        (processTranscript (analyze_line_safe cl pg sm) ys).transcript := by
  have herr := analyze_classifier_error cl pg sm b.text e hd hc
  constructor
  · rw [processTranscript_append]
    simp only []
    rw [processTranscript_cons]
    simp [herr]
  · rw [processTranscript_append]

/-- C2 witness: a three-snippet batch whose middle snippet crashes the
classifier emits the neighbouring lines unchanged around one ERROR line. -/
theorem c2_per_snippet_isolation_witness :
    (processTranscript (analyze_line_safe clCrashOnMoon pgOk smOk)
        ([⟨"water expands when it freezes", 0⟩] ++ ⟨"the moon is made of cheese", 3⟩ ::
          [⟨"the earth orbits the sun", 7⟩])).transcript =
      (processTranscript (analyze_line_safe clCrashOnMoon pgOk smOk)
          [⟨"water expands when it freezes", 0⟩]).transcript ++
        mkLineData ⟨"the moon is made of cheese", 3⟩
          ⟨"ERROR", none, none, none,
           some ("Snippet processing failed: " ++ (PyExc.generic "model crashed").msg)⟩ ::
        (processTranscript (analyze_line_safe clCrashOnMoon pgOk smOk)
            [⟨"the earth orbits the sun", 7⟩]).transcript ∧
    (processTranscript (analyze_line_safe clCrashOnMoon pgOk smOk)
        ([⟨"water expands when it freezes", 0⟩] ++ [⟨"the earth orbits the sun", 7⟩])).transcript =
      (processTranscript (analyze_line_safe clCrashOnMoon pgOk smOk)
          [⟨"water expands when it freezes", 0⟩]).transcript ++
        (processTranscript (analyze_line_safe clCrashOnMoon pgOk smOk)
            [⟨"the earth orbits the sun", 7⟩]).transcript :=
  c2_per_snippet_isolation clCrashOnMoon pgOk smOk
    [⟨"water expands when it freezes", 0⟩] [⟨"the earth orbits the sun", 7⟩]
    ⟨"the moon is made of cheese", 3⟩ (.generic "model crashed") (by decide) rfl

/-- C4 counterexample: one snippet whose classifier raises is emitted as an
ERROR line, so `misinformation_count + real_count + uncertain_count` is 0
while `total_snippets` is 1 — the claimed invariant fails on the code. -/
theorem c4_counterexample :
    ¬ ((analyze_video (analyze_line_safe (fun _ => .error (.generic "boom")) pgOk smOk)
          "http://example" [⟨"the earth is flat", 0⟩]).2.summary.misinformation_count +
       (analyze_video (analyze_line_safe (fun _ => .error (.generic "boom")) pgOk smOk)
          "http://example" [⟨"the earth is flat", 0⟩]).2.summary.real_count +
       ((analyze_video (analyze_line_safe (fun _ => .error (.generic "boom")) pgOk smOk)
          "http://example" [⟨"the earth is flat", 0⟩]).2.transcript.filter
            fun x => x.misinformation == "UNCERTAIN").length =
       (analyze_video (analyze_line_safe (fun _ => .error (.generic "boom")) pgOk smOk)
          "http://example" [⟨"the earth is flat", 0⟩]).2.summary.total_snippets) := by
  decide

/-- C4 as amended: the emitted lines also include ERROR lines, so the
counters satisfy `misinformation_count + real_count + uncertain_count +
error_count == total_annotated`; the original three-term equation holds
exactly when no emitted line has verdict ERROR. -/
theorem c4_amended_summary_partition (cl : String → Except PyExc (Nat × ℚ))
    (pg : String → Except PyExc WikiPage) (sm : String → Except PyExc String)
    (url : String) (ts : List Snippet) :
    (analyze_video (analyze_line_safe cl pg sm) url ts).2.summary.misinformation_count +
    (analyze_video (analyze_line_safe cl pg sm) url ts).2.summary.real_count +
    ((analyze_video (analyze_line_safe cl pg sm) url ts).2.transcript.filter
      fun x => x.misinformation == "UNCERTAIN").length +
    ((analyze_video (analyze_line_safe cl pg sm) url ts).2.transcript.filter
      fun x => x.misinformation == "ERROR").length =
    (analyze_video (analyze_line_safe cl pg sm) url ts).2.summary.total_snippets := by
  have hmem : ∀ ld ∈ (processTranscript (analyze_line_safe cl pg sm) ts).transcript,
      ld.misinformation = "REAL" ∨ ld.misinformation = "UNCERTAIN" ∨
      ld.misinformation = "MISINFORMATION" ∨ ld.misinformation = "ERROR" := by
    intro ld hld
    rcases mem_processTranscript_transcript _ ts ld hld with ⟨s, _, hnig, rfl⟩
    have h5 := analyze_label_mem cl pg sm s.text
    have hfield : (mkLineData s (analyze_line_safe cl pg sm s.text)).misinformation =
        (analyze_line_safe cl pg sm s.text).label := rfl
    rw [hfield]
    simp only [List.mem_cons, List.not_mem_nil, or_false] at h5
    rcases h5 with h | h | h | h | h
    · exact absurd h hnig
    · exact Or.inl h
    · exact Or.inr (Or.inl h)
    · exact Or.inr (Or.inr (Or.inl h))
    · exact Or.inr (Or.inr (Or.inr h))
  have hpart := filter_label_partition _ hmem
  show (processTranscript (analyze_line_safe cl pg sm) ts).misconceptions.length + _ + _ + _ = _
  rw [processTranscript_misconceptions_eq]
  exact hpart

/-- C5: an emitted annotated line carries a corrective fact only when its
verdict is MISINFORMATION; REAL, UNCERTAIN and ERROR lines have an absent
`correct_fact`. -/
theorem c5_fact_only_on_mis (cl : String → Except PyExc (Nat × ℚ))
    (pg : String → Except PyExc WikiPage) (sm : String → Except PyExc String)
    (ts : List Snippet) (ld : LineData)
    (hld : ld ∈ (processTranscript (analyze_line_safe cl pg sm) ts).transcript)
    (hnm : ld.misinformation ≠ "MISINFORMATION") :
    ld.correct_fact = none := by
  rcases mem_processTranscript_transcript _ ts ld hld with ⟨s, _, _, rfl⟩
  exact analyze_fact_only_mis cl pg sm s.text hnm

/-- C5 witness: the REAL line emitted for a concrete snippet has no
corrective fact. -/
theorem c5_fact_only_on_mis_witness :
    (⟨0, "water expands when it freezes", "REAL", some 1, none, none⟩ : LineData).correct_fact =
      none :=
  c5_fact_only_on_mis clTrue pgOk smOk [⟨"water expands when it freezes", 0⟩]
    ⟨0, "water expands when it freezes", "REAL", some 1, none, none⟩
    (by decide) (by decide)

/-- C7 counterexample: the lookup CAN raise past its boundary.  When
`page` reports an ambiguous query and the `summary` of the first candidate
itself fails, the exception raised inside the `except DisambiguationError`
handler is not caught by the sibling `except Exception` clause and
propagates out of `retrieve_correct_fact`. -/
theorem c7_counterexample :
    retrieve_correct_fact pgAmbiguous smFail "mercury is the smallest planet" =
      .error (.generic "summary fetch failed") := rfl

/-- C7 as amended: a failure in the primary lookup path (any
non-disambiguation exception from the `try` block) degrades to
`(None, None)`; however an exception in the disambiguation fallback
propagates past the lookup boundary.  The handler in the caller contains
either outcome: a propagated exception becomes an absent fact with a
diagnostic `source`, and an absent fact returned normally is accepted
without failing the snippet (the line is still MISINFORMATION). -/
theorem c7_amended_lookup_containment :
    (∀ (pg : String → Except PyExc WikiPage) (sm : String → Except PyExc String)
       (text : String) (e : PyExc),
       retrieve_try pg sm text = .error e → (∀ opts, e ≠ .disambiguation opts) →
       retrieve_correct_fact pg sm text = .ok (none, none)) ∧
    (∀ (cl : String → Except PyExc (Nat × ℚ)) (pg : String → Except PyExc WikiPage)
       (sm : String → Except PyExc String) (text : String) (pred_id : ℕ) (conf : ℚ)
       (lab : String) (e : PyExc),
       dropSnippet text = false → cl text = .ok (pred_id, conf) →
       label_map pred_id = some lab →
       ¬(lab = "true" ∨ lab = "mostly-true") → ¬(lab = "half-true" ∨ lab = "barely-true") →
       retrieve_correct_fact pg sm text = .error e →
       analyze_line_safe cl pg sm text =
         ⟨"MISINFORMATION", some lab, some conf, none,
          some ("Fact retrieval failed: " ++ e.msg)⟩) ∧
    (∀ (cl : String → Except PyExc (Nat × ℚ)) (pg : String → Except PyExc WikiPage)
       (sm : String → Except PyExc String) (text : String) (pred_id : ℕ) (conf : ℚ)
       (lab : String) (src : Option String),
       dropSnippet text = false → cl text = .ok (pred_id, conf) →
       label_map pred_id = some lab →
       ¬(lab = "true" ∨ lab = "mostly-true") → ¬(lab = "half-true" ∨ lab = "barely-true") →
       retrieve_correct_fact pg sm text = .ok (none, src) →
       analyze_line_safe cl pg sm text =
         ⟨"MISINFORMATION", some lab, some conf, none, src⟩) := by
  refine ⟨?_, ?_, ?_⟩
  · intro pg sm text e h hne
    unfold retrieve_correct_fact
    rw [h]
    cases e with
    | disambiguation opts => exact absurd rfl (hne opts)
    | keyError k => rfl
    | indexError => rfl
    | generic m => rfl
  · intro cl pg sm text pred_id conf lab e hd hc hl h1 h2 hret
    exact analyze_mis_retrieval_error cl pg sm text pred_id conf lab e hd hc hl h1 h2 hret
  · intro cl pg sm text pred_id conf lab src hd hc hl h1 h2 hret
    exact analyze_mis_retrieval_ok cl pg sm text pred_id conf lab none src hd hc hl h1 h2 hret

/-- C7 witness: a network fault in `page` degrades to `(None, None)`. -/
theorem c7_amended_lookup_containment_witness :
    retrieve_correct_fact pgNetFault smOk "mercury is the smallest planet" =
      .ok (none, none) :=
  c7_amended_lookup_containment.1 pgNetFault smOk "mercury is the smallest planet"
    (.generic "network fault") rfl (fun _ h => PyExc.noConfusion h)

/-- C8 counterexample: when fact lookup for a MISINFORMATION line fails
without throwing (the internal `except Exception` returns `(None, None)`),
the line appears under `misconceptions` with `correct_fact` null but with
`source` null as well — not the claimed non-null diagnostic string — while
the request still returns 200. -/
theorem c8_counterexample :
    (analyze_video (analyze_line_safe clFalse pgNetFault smOk) "http://example"
        [⟨"the earth is flat", 5⟩]).2.misconceptions =
      [⟨5, "the earth is flat", "MISINFORMATION", some (9/10), none, none⟩] ∧
    (analyze_video (analyze_line_safe clFalse pgNetFault smOk) "http://example"
        [⟨"the earth is flat", 5⟩]).1 = 200 := by
  exact ⟨rfl, rfl⟩

/-- C8 as amended: for a MISINFORMATION snippet, if the lookup throws past
its boundary the line still appears under `misconceptions` with
`correct_fact` null and a non-null diagnostic `source`; if the lookup
degrades internally, the line appears with whatever `source` (possibly
null) the lookup returned next to the null fact; in both cases the request
completes with HTTP 200. -/
theorem c8_amended_lookup_failure_line (cl : String → Except PyExc (Nat × ℚ))
    (pg : String → Except PyExc WikiPage) (sm : String → Except PyExc String)
    (url : String) (ts : List Snippet) (s : Snippet) (pred_id : ℕ) (conf : ℚ)
    (lab : String) (hs : s ∈ ts) (hd : dropSnippet s.text = false)
    (hc : cl s.text = .ok (pred_id, conf)) (hl : label_map pred_id = some lab)
    (h1 : ¬(lab = "true" ∨ lab = "mostly-true"))
    (h2 : ¬(lab = "half-true" ∨ lab = "barely-true")) :
    (analyze_video (analyze_line_safe cl pg sm) url ts).1 = 200 ∧
    (∀ e, retrieve_correct_fact pg sm s.text = .error e →
       mkLineData s ⟨"MISINFORMATION", some lab, some conf, none,
           some ("Fact retrieval failed: " ++ e.msg)⟩ ∈
         (analyze_video (analyze_line_safe cl pg sm) url ts).2.misconceptions) ∧
    (∀ src, retrieve_correct_fact pg sm s.text = .ok (none, src) →
       mkLineData s ⟨"MISINFORMATION", some lab, some conf, none, src⟩ ∈
         (analyze_video (analyze_line_safe cl pg sm) url ts).2.misconceptions) := by
  refine ⟨rfl, ?_, ?_⟩
  · intro e hret
    have ha := analyze_mis_retrieval_error cl pg sm s.text pred_id conf lab e hd hc hl h1 h2 hret
    have hm := mem_misconceptions_of_mis (analyze_line_safe cl pg sm) ts s hs (by rw [ha])
    rw [ha] at hm
    exact hm
  · intro src hret
    have ha := analyze_mis_retrieval_ok cl pg sm s.text pred_id conf lab none src hd hc hl h1 h2 hret
    have hm := mem_misconceptions_of_mis (analyze_line_safe cl pg sm) ts s hs (by rw [ha])
    rw [ha] at hm
    exact hm

/-- C8 witness: a lookup that throws (ambiguous query whose fallback
summary fails) still yields a misconceptions entry with a null fact and a
non-null diagnostic source. -/
theorem c8_amended_lookup_failure_line_witness :
    mkLineData ⟨"the earth is flat", 5⟩
        ⟨"MISINFORMATION", some "false", some (9/10), none,
         some ("Fact retrieval failed: " ++ (PyExc.generic "summary fetch failed").msg)⟩ ∈
      (analyze_video (analyze_line_safe clFalse pgAmbiguous smFail) "http://example"
        [⟨"the earth is flat", 5⟩]).2.misconceptions :=
  (c8_amended_lookup_failure_line clFalse pgAmbiguous smFail "http://example"
      [⟨"the earth is flat", 5⟩] ⟨"the earth is flat", 5⟩ 1 (9/10) "false"
      (by decide) (by decide) rfl rfl (by decide) (by decide)).2.1
    (.generic "summary fetch failed") rfl

/-- C9: aggregation is order-preserving over a single forward pass: the
emitted transcript is the input order filtered of IGNORED snippets, the
misconceptions list is the MISINFORMATION sublist of the transcript in the
same order, and `misinformation_count` equals its length. -/
theorem c9_order_preserving (analyze : String → LineAnalysis) (url : String)
    (ts : List Snippet) :
    (analyze_video analyze url ts).2.transcript =
      ts.filterMap (fun s =>
        if (analyze s.text).label = "IGNORED" then none
        else some (mkLineData s (analyze s.text))) ∧
    (analyze_video analyze url ts).2.misconceptions =
      (analyze_video analyze url ts).2.transcript.filter
        (fun ld => ld.misinformation == "MISINFORMATION") ∧
    (analyze_video analyze url ts).2.summary.misinformation_count =
      (analyze_video analyze url ts).2.misconceptions.length :=
  ⟨processTranscript_transcript_eq analyze ts,
   processTranscript_misconceptions_eq analyze ts, rfl⟩
